import Mathlib

/-!
Verification of the core logic of the claude-video-transcribe CLI
(src/src/main.rs): the Apify polling state machine, the dataset collect
step, the Gemini answer extraction, the video-id resolver, and the
orchestrating compositions. Each Rust function is shallowly embedded as
an executable Lean definition; external HTTP services are abstracted as
oracles supplied through an environment record.
-/

/-- Result of the polling loop in `VideoTranscriber::fetch_transcript`
(main.rs lines 217-256). `collect n` means the loop observed SUCCEEDED on
the n-th poll and breaks to the collect step; `serviceError n s` means the
n-th poll reported a terminal failure status `s` and the fetch aborts;
`localTimeout n` means the local attempt budget was exhausted after `n`
polls. -/
inductive PollResult where
  | collect (polls : Nat)
  | serviceError (polls : Nat) (status : String)
  | localTimeout (polls : Nat)
  deriving DecidableEq, Repr

/-- The service-reported terminal failure statuses matched by the Rust
arm FAILED | ABORTED | TIMED-OUT. -/
def isFailStatus (s : String) : Bool :=
  s == "FAILED" || s == "ABORTED" || s == "TIMED-OUT"

/-- A status that ends the loop: either SUCCEEDED or a failure status. -/
def isTerminalStatus (s : String) : Bool :=
  s == "SUCCEEDED" || isFailStatus s

/-- The polling loop of `fetch_transcript`. `g i` is the status string
returned by the service on the (i+1)-th poll. The Rust loop counts
attempts upward and bails in the default arm once
attempts >= max_attempts; here `remaining` counts the attempts left,
i.e. remaining = max_attempts - attempts at loop entry, so the default
arm bails exactly when remaining <= 1 (the incremented counter has
reached the bound). -/
def pollLoop (g : Nat → String) : Nat → Nat → PollResult
  | idx, remaining =>
    if g idx == "SUCCEEDED" then
      .collect (idx + 1)
    else if isFailStatus (g idx) then
      .serviceError (idx + 1) (g idx)
    else
      match remaining with
      | 0 => .localTimeout (idx + 1)
      | 1 => .localTimeout (idx + 1)
      | n + 2 => pollLoop g (idx + 1) (n + 1)

/-- max_attempts = 60 from main.rs line 219. -/
def max_attempts : Nat := 60

/-- The whole polling phase of `fetch_transcript`: start at attempt 0
with the full budget of 60 attempts. -/
def fetchPoll (g : Nat → String) : PollResult :=
  pollLoop g 0 max_attempts

/-- A status sequence given as a finite list; polls past the end of the
list observe an empty (hence non-terminal, i.e. still pending) status. -/
def statusSeq (l : List String) (i : Nat) : String :=
  l.getD i ""

/-- One item of the Apify dataset (main.rs lines 59-65): optional text,
channel name and title. -/
structure ApifyDatasetItem where
  text : Option String
  channel_name : Option String
  title : Option String
  deriving DecidableEq, Repr

/-- The collect step of `fetch_transcript` (main.rs lines 272-295): an
empty item list is the "no transcript" error; a first item without text
is the "no transcript text" error; otherwise the text of the
first item is returned. -/
def collectTranscript (items : List ApifyDatasetItem) : Except String String :=
  match items with
  | [] => .error "No transcript found for the video. The video might not have captions."
  | item :: _ =>
    match item.text with
    | some transcript => .ok transcript
    | none => .error "No transcript text found in the video data"

/-- main.rs lines 144-147. -/
structure GeminiResponsePart where
  text : Option String
  deriving DecidableEq, Repr

/-- main.rs lines 139-142. -/
structure GeminiResponseContent where
  parts : List GeminiResponsePart
  deriving DecidableEq, Repr

/-- main.rs lines 134-137. -/
structure GeminiCandidate where
  content : GeminiResponseContent
  deriving DecidableEq, Repr

/-- main.rs lines 129-132: the candidates field is optional. -/
structure GeminiGenerateResponse where
  candidates : Option (List GeminiCandidate)
  deriving DecidableEq, Repr

/-- The answer extraction of `ask_question` (main.rs lines 403-408):
first candidate, then its first content part, then the text of that
part;
any absence yields the "No answer generated" error. -/
def extractAnswer (r : GeminiGenerateResponse) : Except String String :=
  match (((r.candidates.bind List.head?).bind
      (fun c => c.content.parts.head?)).bind
      (fun p => p.text)) with
  | some answer => .ok answer
  | none => .error "No answer generated by Gemini"

/-- The two-character pattern searched first by `extract_video_id`. -/
def vMark : List Char := ['v', '=']

/-- The second pattern searched by `extract_video_id`. -/
def ytMark : List Char := String.toList "youtu.be/"

/-- Rust str::find for a substring pattern: index of the first
occurrence of `pat` in `s`, if any. -/
def findSubstr : List Char → List Char → Option Nat
  | s, pat =>
    if pat.isPrefixOf s then some 0
    else
      match s with
      | [] => none
      | _ :: t => (findSubstr t pat).map (fun n => n + 1)

/-- Rust str::contains for a substring pattern. -/
def containsSubstr (s pat : List Char) : Bool :=
  (findSubstr s pat).isSome

/-- Rust str::find for a single character. -/
def charFind (c : Char) : List Char → Option Nat
  | [] => none
  | a :: t => if a == c then some 0 else (charFind c t).map (fun n => n + 1)

/-- `VideoTranscriber::extract_video_id` (main.rs lines 414-435) on the
character list of the URL: if "v=" occurs, take from after the first
occurrence up to the first following ampersand or the end; otherwise, if
"youtu.be/" occurs, take from after it up to the first following
question mark or the end; otherwise fail. -/
def extractId (url : List Char) : Except String (List Char) :=
  match findSubstr url vMark with
  | some vPos =>
    let idStart := vPos + 2
    let idEnd :=
      match charFind '&' (url.drop idStart) with
      | some pos => idStart + pos
      | none => url.length
    .ok ((url.drop idStart).take (idEnd - idStart))
  | none =>
    if containsSubstr url ytMark then
      match findSubstr url ytMark with
      | some idPos =>
        let idStart := idPos + 9
        let idEnd :=
          match charFind '?' (url.drop idStart) with
          | some pos => idStart + pos
          | none => url.length
        .ok ((url.drop idStart).take (idEnd - idStart))
      | none => .error ("Could not extract video ID from URL: " ++ url.asString)
    else .error ("Could not extract video ID from URL: " ++ url.asString)

/-- String-level wrapper of `extract_video_id`. -/
def extract_video_id (url : String) : Except String String :=
  (extractId url.toList).map List.asString

/-- Whether an Except value is a success. -/
def exceptIsOk {ε α : Type} : Except ε α → Bool
  | .ok _ => true
  | .error _ => false

/-- The nested payload of the Gemini file-upload response
(main.rs lines 87-92). -/
structure GeminiFileInfo where
  name : String
  uri : String
  state : String
  deriving DecidableEq, Repr

/-- The external services, determinized: each field gives the response
the corresponding HTTP call would produce (an error models transport or
non-success HTTP failures, which the Rust code turns into fatal
errors). `status i` is the job status string on the (i+1)-th poll. -/
structure Env where
  runId : String → Except String String
  status : Nat → String
  items : String → Except String (List ApifyDatasetItem)
  upload : String → String → Except String GeminiFileInfo
  generate : String → String → Except String GeminiGenerateResponse

/-- `VideoTranscriber::fetch_transcript` (main.rs lines 178-295):
submit the run, poll until a terminal outcome, then collect the dataset
and take the text of the first item. -/
def fetch_transcript (env : Env) (youtube_url : String) : Except String String := do
  let run_id ← env.runId youtube_url
  match fetchPoll env.status with
  | .collect _ => do
    let items ← env.items run_id
    collectTranscript items
  | .serviceError _ s => .error ("Apify run failed with status: " ++ s)
  | .localTimeout _ => .error "Apify run timed out after 60 attempts"

/-- `VideoTranscriber::upload_to_gemini` (main.rs lines 298-352):
derive the display name from the extracted video id, upload, and return
the uri of the response (the non-ACTIVE state only triggers a sleep,
which has no effect on the returned value). -/
def upload_to_gemini (env : Env) (transcript : String) (video_url : String) :
    Except String String := do
  let video_id ← extract_video_id video_url
  let file_name := "youtube_transcript_" ++ video_id ++ ".txt"
  let info ← env.upload transcript file_name
  pure info.uri

/-- `VideoTranscriber::ask_question` (main.rs lines 355-411): one
generation request, then extract the answer from the nested response. -/
def ask_question (env : Env) (file_uri : String) (question : String) :
    Except String String := do
  let r ← env.generate file_uri question
  extractAnswer r

/-- `VideoTranscriber::index_video` (main.rs lines 438-442). -/
def index_video (env : Env) (url : String) : Except String String := do
  let transcript ← fetch_transcript env url
  let file_uri ← upload_to_gemini env transcript url
  pure file_uri

/-- `VideoTranscriber::query_video` (main.rs lines 445-449). -/
def query_video (env : Env) (url : String) (question : String) :
    Except String String := do
  let file_uri ← index_video env url
  let answer ← ask_question env file_uri question
  pure answer

/-- The body of the Ask arm of `main` (main.rs lines 466-471): index the
video, then ask the question against the returned file uri. -/
def main_ask (env : Env) (url : String) (question : String) :
    Except String String := do
  let file_uri ← index_video env url
  let answer ← ask_question env file_uri question
  pure answer

lemma isFail_not_succ {s : String} (h : isFailStatus s = true) :
    (s == "SUCCEEDED") = false := by
  simp only [isFailStatus, Bool.or_eq_true, beq_iff_eq] at h
  rcases h with (h | h) | h <;> subst h <;> rfl

lemma pollLoop_succ (g : Nat → String) (idx r : Nat) (h : g idx = "SUCCEEDED") :
    pollLoop g idx r = .collect (idx + 1) := by
  rw [pollLoop.eq_def]
  simp [h]

lemma pollLoop_fail (g : Nat → String) (idx r : Nat) (h : isFailStatus (g idx) = true) :
    pollLoop g idx r = .serviceError (idx + 1) (g idx) := by
  rw [pollLoop.eq_def]
  simp [isFail_not_succ h, h]

lemma pollLoop_pend_step (g : Nat → String) (idx n : Nat)
    (h : isTerminalStatus (g idx) = false) :
    pollLoop g idx (n + 2) = pollLoop g (idx + 1) (n + 1) := by
  simp only [isTerminalStatus, Bool.or_eq_false_iff] at h
  rw [pollLoop.eq_def]
  simp [h.1, h.2]

lemma pollLoop_pend_timeout (g : Nat → String) (idx r : Nat)
    (h : isTerminalStatus (g idx) = false) (hr : r ≤ 1) :
    pollLoop g idx r = .localTimeout (idx + 1) := by
  simp only [isTerminalStatus, Bool.or_eq_false_iff] at h
  rw [pollLoop.eq_def]
  interval_cases r <;> simp [h.1, h.2]

lemma pollLoop_shift (g : Nat → String) :
    ∀ (i idx r : Nat), i < r →
      (∀ j, j < i → isTerminalStatus (g (idx + j)) = false) →
      pollLoop g idx r = pollLoop g (idx + i) (r - i) := by
  intro i
  induction i with
  | zero => intro idx r _ _; simp
  | succ i ih =>
    intro idx r hir hp
    have h0 : isTerminalStatus (g idx) = false := by
      have := hp 0 (Nat.succ_pos i)
      simpa using this
    obtain ⟨n, rfl⟩ : ∃ n, r = n + 2 := ⟨r - 2, by omega⟩
    rw [pollLoop_pend_step g idx n h0]
    have := ih (idx + 1) (n + 1) (by omega)
      (fun j hj => by
        have := hp (j + 1) (by omega)
        simpa [Nat.add_assoc, Nat.add_comm 1 j] using this)
    rw [this]
    congr 1 <;> omega

/-- C1: polling advances to Collect exactly when SUCCEEDED is observed:
the sequence [Pending, Pending, Succeeded] reaches Collect after exactly
3 polls; more generally a Succeeded on poll i+1 (after pending polls)
reaches Collect after exactly i+1 polls; and a FAILED/ABORTED/TIMED-OUT
observed on poll i+1 (after pending polls) aborts there with a fatal
error carrying the reported status, after exactly i+1 polls and no
further ones. -/
theorem C1_poll_transitions :
    fetchPoll (statusSeq ["PENDING", "PENDING", "SUCCEEDED"]) = .collect 3
    ∧ (∀ (g : Nat → String) (i : Nat), i < max_attempts →
        (∀ j, j < i → isTerminalStatus (g j) = false) →
        g i = "SUCCEEDED" →
        fetchPoll g = .collect (i + 1))
    ∧ (∀ (g : Nat → String) (i : Nat), i < max_attempts →
        (∀ j, j < i → isTerminalStatus (g j) = false) →
        isFailStatus (g i) = true →
        fetchPoll g = .serviceError (i + 1) (g i)) := by
  refine ⟨rfl, ?_, ?_⟩
  · intro g i hi hp hs
    unfold fetchPoll
    rw [pollLoop_shift g i 0 max_attempts hi (fun j hj => by simpa using hp j hj)]
    simpa using pollLoop_succ g i (max_attempts - i) hs
  · intro g i hi hp hf
    unfold fetchPoll
    rw [pollLoop_shift g i 0 max_attempts hi (fun j hj => by simpa using hp j hj)]
    simpa using pollLoop_fail g i (max_attempts - i) hf

theorem C1_witness :
    fetchPoll (statusSeq ["PENDING", "FAILED"]) = .serviceError 2 "FAILED" := by
  have h := C1_poll_transitions.2.2 (statusSeq ["PENDING", "FAILED"]) 1
    (by norm_num [max_attempts])
    (fun j hj => by
      have : j = 0 := by omega
      subst this; rfl)
    rfl
  exact h

/-- C2: a status sequence that never leaves Pending makes the fetch stop
with the local timeout after exactly 60 poll attempts (the localTimeout
outcome, a different constructor from the service-reported
serviceError). -/
theorem C2_local_timeout (g : Nat → String)
    (hp : ∀ i, i < max_attempts → isTerminalStatus (g i) = false) :
    fetchPoll g = .localTimeout max_attempts := by
  unfold fetchPoll
  rw [pollLoop_shift g (max_attempts - 1) 0 max_attempts (by norm_num [max_attempts])
    (fun j hj => by
      have := hp j (by omega)
      simpa using this)]
  have hlast : isTerminalStatus (g (0 + (max_attempts - 1))) = false := by
    have := hp (max_attempts - 1) (by norm_num [max_attempts])
    simpa using this
  rw [pollLoop_pend_timeout g _ _ hlast (by norm_num [max_attempts])]
  norm_num [max_attempts]

theorem C2_witness : fetchPoll (fun _ => "RUNNING") = .localTimeout 60 :=
  C2_local_timeout (fun _ => "RUNNING") (fun _ _ => rfl)

/-- C9: the local attempt bound only cuts off a still-pending poll: a
SUCCEEDED reported on exactly the 60th poll still reaches Collect. -/
theorem C9_success_on_last_attempt (g : Nat → String)
    (hp : ∀ j, j < 59 → isTerminalStatus (g j) = false)
    (hs : g 59 = "SUCCEEDED") :
    fetchPoll g = .collect 60 := by
  unfold fetchPoll
  rw [pollLoop_shift g 59 0 max_attempts (by norm_num [max_attempts])
    (fun j hj => by simpa using hp j hj)]
  simpa using pollLoop_succ g 59 (max_attempts - 59) hs

theorem C9_witness :
    fetchPoll (fun i => if i < 59 then "RUNNING" else "SUCCEEDED") = .collect 60 :=
  C9_success_on_last_attempt _
    (fun j hj => by simp only [if_pos hj]; rfl)
    (by norm_num)

/-- C6: the collect step errors with the "no transcript" message on an
empty result array, errors with the "no transcript text" message when
the first item has no text field (whatever its title and channel name),
and otherwise returns the first item text. -/
theorem C6_collect_step :
    collectTranscript [] =
      .error "No transcript found for the video. The video might not have captions."
    ∧ (∀ (item : ApifyDatasetItem) (rest : List ApifyDatasetItem),
        item.text = none →
        collectTranscript (item :: rest) =
          .error "No transcript text found in the video data")
    ∧ (∀ (item : ApifyDatasetItem) (rest : List ApifyDatasetItem) (t : String),
        item.text = some t →
        collectTranscript (item :: rest) = .ok t) := by
  refine ⟨rfl, ?_, ?_⟩
  · intro item rest h
    simp [collectTranscript, h]
  · intro item rest t h
    simp [collectTranscript, h]

theorem C6_witness :
    collectTranscript [⟨none, some "a channel", some "a title"⟩] =
      .error "No transcript text found in the video data" :=
  C6_collect_step.2.1 ⟨none, some "a channel", some "a title"⟩ [] rfl

/-- C7: answer extraction fails with the "No answer generated" error
whenever the candidates field is absent, the candidate list is empty,
the first candidate has no parts, or the first part has no text — it
never succeeds in any of these cases, so no empty-string success stands
in for an absent answer. -/
theorem C7_no_answer_on_absence :
    (∀ r : GeminiGenerateResponse, r.candidates = none →
        extractAnswer r = .error "No answer generated by Gemini")
    ∧ (∀ r : GeminiGenerateResponse, r.candidates = some [] →
        extractAnswer r = .error "No answer generated by Gemini")
    ∧ (∀ (r : GeminiGenerateResponse) (c : GeminiCandidate)
        (cs : List GeminiCandidate), r.candidates = some (c :: cs) →
        c.content.parts = [] →
        extractAnswer r = .error "No answer generated by Gemini")
    ∧ (∀ (r : GeminiGenerateResponse) (c : GeminiCandidate)
        (cs : List GeminiCandidate) (p : GeminiResponsePart)
        (ps : List GeminiResponsePart), r.candidates = some (c :: cs) →
        c.content.parts = p :: ps → p.text = none →
        extractAnswer r = .error "No answer generated by Gemini") := by
  refine ⟨?_, ?_, ?_, ?_⟩
  · intro r h; simp [extractAnswer, h]
  · intro r h; simp [extractAnswer, h]
  · intro r c cs h1 h2; simp [extractAnswer, h1, h2]
  · intro r c cs p ps h1 h2 h3; simp [extractAnswer, h1, h2, h3]

theorem C7_witness :
    extractAnswer ⟨some []⟩ = .error "No answer generated by Gemini" :=
  C7_no_answer_on_absence.2.1 ⟨some []⟩ rfl

/-- C10: when the first candidate and its first part exist and the part
carries a present text, the answerer returns that text as a success —
in particular a present but empty text yields a successful empty-string
answer, not the "No answer generated" error. -/
theorem C10_present_text_succeeds (r : GeminiGenerateResponse)
    (c : GeminiCandidate) (cs : List GeminiCandidate)
    (p : GeminiResponsePart) (ps : List GeminiResponsePart) (t : String)
    (h1 : r.candidates = some (c :: cs))
    (h2 : c.content.parts = p :: ps)
    (h3 : p.text = some t) :
    extractAnswer r = .ok t := by
  simp [extractAnswer, h1, h2, h3]

theorem C10_witness :
    extractAnswer ⟨some [⟨⟨[⟨some ""⟩]⟩⟩]⟩ = .ok "" :=
  C10_present_text_succeeds ⟨some [⟨⟨[⟨some ""⟩]⟩⟩]⟩ ⟨⟨[⟨some ""⟩]⟩⟩ []
    ⟨some ""⟩ [] "" rfl rfl rfl

/-- C8: query is the identical composition to the ask command: both run
index (fetch the transcript, then upload it, re-deriving everything from
the url each time with no cache consulted) and then answer with the
resulting file uri; on every environment and input the two produce the
same result. -/
theorem C8_query_eq_ask :
    ∀ (env : Env) (url question : String),
      query_video env url question =
        (fetch_transcript env url >>= fun transcript =>
          upload_to_gemini env transcript url >>= fun file_uri =>
            ask_question env file_uri question)
      ∧ query_video env url question = main_ask env url question := by
  intro env url question
  constructor
  · simp [query_video, index_video, bind_assoc, bind_pure]
  · rfl

lemma charFind_of_not_mem {c : Char} : ∀ {l : List Char}, c ∉ l → charFind c l = none := by
  intro l
  induction l with
  | nil => intro _; rfl
  | cons a t ih =>
    intro h
    rw [charFind]
    have ha : (a == c) = false := by
      simp only [List.mem_cons, not_or] at h
      simp [beq_iff_eq]
      exact fun hac => h.1 hac.symm
    rw [ha]
    simp [ih (by simp only [List.mem_cons, not_or] at h; exact h.2)]

lemma charFind_append_self {c : Char} :
    ∀ (l r : List Char), c ∉ l → charFind c (l ++ c :: r) = some l.length := by
  intro l
  induction l with
  | nil =>
    intro r _
    simp [charFind]
  | cons a t ih =>
    intro r h
    simp only [List.mem_cons, not_or] at h
    rw [List.cons_append, charFind]
    have ha : (a == c) = false := by
      simp [beq_iff_eq]
      exact fun hac => h.1 hac.symm
    rw [ha]
    simp [ih r h.2]

lemma findSubstr_cons (c : Char) (t pat : List Char) :
    findSubstr (c :: t) pat =
      if pat.isPrefixOf (c :: t) then some 0
      else (findSubstr t pat).map (fun n => n + 1) := by
  rw [findSubstr.eq_def]

lemma contains_cons_false {c : Char} {pre : List Char} {pat : List Char}
    (h : containsSubstr (c :: pre) pat = false) :
    pat.isPrefixOf (c :: pre) = false ∧ containsSubstr pre pat = false := by
  simp only [containsSubstr] at h ⊢
  rw [findSubstr_cons] at h
  by_cases hp : pat.isPrefixOf (c :: pre) = true
  · rw [if_pos hp] at h; simp at h
  · rw [if_neg hp] at h
    refine ⟨Bool.eq_false_iff.mpr hp, ?_⟩
    simpa using h

lemma findSubstr_vMark_first (id0 : List Char) :
    ∀ (pre : List Char), containsSubstr pre vMark = false →
      findSubstr (pre ++ 'v' :: '=' :: id0) vMark = some pre.length := by
  intro pre
  induction pre with
  | nil =>
    intro _
    rw [List.nil_append, findSubstr_cons]
    simp [vMark, List.isPrefixOf]
  | cons c pre ih =>
    intro h
    obtain ⟨hp, hpre⟩ := contains_cons_false h
    have hp2 : vMark.isPrefixOf (c :: (pre ++ 'v' :: '=' :: id0)) = false := by
      cases pre with
      | nil => simp [vMark, List.isPrefixOf]
      | cons d pre2 =>
        simp only [vMark, List.isPrefixOf, Bool.and_eq_false_iff] at hp ⊢
        rcases hp with hp | hp
        · exact Or.inl hp
        · rcases hp with hp | hp
          · exact Or.inr (Or.inl hp)
          · simp at hp
    rw [List.cons_append, findSubstr_cons, if_neg (by simp [hp2]), ih hpre]
    rfl

/-- C3: for a URL of the form pre ++ "v=" ++ id ++ suf where "v=" does
not occur in pre (so this is the first occurrence, the query form being
tried before the path form), the id holds no ampersand, and suf is
either empty or starts with an ampersand, the resolver succeeds with
exactly id. -/
theorem C3_query_form (pre id suf : List Char)
    (hpre : containsSubstr pre vMark = false)
    (hid : '&' ∉ id)
    (hsuf : suf = [] ∨ ∃ s2, suf = '&' :: s2) :
    extractId (pre ++ vMark ++ id ++ suf) = .ok id := by
  have hurl : pre ++ vMark ++ id ++ suf = pre ++ 'v' :: '=' :: (id ++ suf) := by
    simp [vMark]
  rw [hurl]
  have hdrop : (pre ++ 'v' :: '=' :: (id ++ suf)).drop (pre.length + 2) = id ++ suf := by
    have h2 : pre ++ 'v' :: '=' :: (id ++ suf) = (pre ++ ['v', '=']) ++ (id ++ suf) := by
      simp
    have hl : (pre ++ ['v', '=']).length = pre.length + 2 := by simp
    rw [h2, ← hl, List.drop_left]
  unfold extractId
  rw [findSubstr_vMark_first (id ++ suf) pre hpre]
  rcases hsuf with rfl | ⟨s2, rfl⟩
  · have hfind : charFind '&' (id ++ ([] : List Char)) = none := by
      rw [List.append_nil]; exact charFind_of_not_mem hid
    simp only [hdrop, hfind]
    have hlen : (pre ++ 'v' :: '=' :: (id ++ ([] : List Char))).length
        - (pre.length + 2) = id.length := by
      simp only [List.length_append, List.length_cons, List.length_nil]
      omega
    rw [hlen, List.append_nil, List.take_length]
  · have hfind : charFind '&' (id ++ '&' :: s2) = some id.length :=
      charFind_append_self id s2 hid
    simp only [hdrop, hfind]
    have harith : pre.length + 2 + id.length - (pre.length + 2) = id.length := by
      omega
    rw [harith, List.take_left]

theorem C3_witness :
    extractId (String.toList "https://x/watch?" ++ vMark
        ++ String.toList "abc123" ++ String.toList "&t=5")
      = .ok (String.toList "abc123") :=
  C3_query_form (String.toList "https://x/watch?") (String.toList "abc123")
    (String.toList "&t=5") (by decide) (by decide)
    (Or.inr ⟨String.toList "t=5", by decide⟩)

/-- C5: a URL in which neither the "v=" query marker nor the
"youtu.be/" path marker occurs makes the resolver fail with the
could-not-extract error. -/
theorem C5_no_pattern_error (url : List Char)
    (h1 : containsSubstr url vMark = false)
    (h2 : containsSubstr url ytMark = false) :
    extractId url = .error ("Could not extract video ID from URL: " ++ url.asString) := by
  cases hfind : findSubstr url vMark with
  | some v =>
    exfalso
    have hc : containsSubstr url vMark = true := by simp [containsSubstr, hfind]
    rw [h1] at hc
    exact Bool.false_ne_true hc
  | none =>
    unfold extractId
    simp [hfind, h2]

theorem C5_witness :
    extractId (String.toList "https://example.com")
      = .error ("Could not extract video ID from URL: "
          ++ (String.toList "https://example.com").asString) :=
  C5_no_pattern_error (String.toList "https://example.com") (by decide) (by decide)

/-- C4 counterexample: on the URL "https://x/watch?v=" the resolver
succeeds with the empty identifier, so success does not imply a
non-empty identifier. -/
theorem C4_cex_empty_id_success :
    extractId (String.toList "https://x/watch?v=") = .ok [] := rfl

/-- C4 amended: extraction succeeds exactly when the URL holds one of
the two markers "v=" or "youtu.be/"; the identifier returned on success
may be empty (see the v=-at-end counterexample), so the original
non-emptiness invariant does not hold. -/
theorem C4_success_iff_marker (url : List Char) :
    exceptIsOk (extractId url) = (containsSubstr url vMark || containsSubstr url ytMark) := by
  unfold extractId
  cases hfind : findSubstr url vMark with
  | some v =>
    have hc : containsSubstr url vMark = true := by simp [containsSubstr, hfind]
    simp [hc, exceptIsOk]
  | none =>
    have hc : containsSubstr url vMark = false := by simp [containsSubstr, hfind]
    cases hyt : containsSubstr url ytMark with
    | true =>
      have hsome : (findSubstr url ytMark).isSome = true := hyt
      obtain ⟨p, hp⟩ := Option.isSome_iff_exists.mp hsome
      simp [hc, hyt, hp, exceptIsOk]
    | false =>
      simp [hc, hyt, exceptIsOk]
